import Mathlib

/-!
Verification of the sargassum-detection pipeline (AFAI / ASI indices and the
`detect_sargassum` orchestrator) against its natural-language specification.

The Python source is shallowly embedded: numpy 2-D arrays become `List (List ℚ)`,
the band dictionary (`channels_data`) becomes an association list, and Python
exceptions become an explicit error type threaded through `Except`.
-/

namespace Sargassum

/-- A 2-D numeric array (numpy array of floats, embedded over ℚ). -/
abbrev Mat := List (List ℚ)

/-- The scene-classification layer: a 2-D array of small integer class codes. -/
abbrev SCLMat := List (List Nat)

/-- `channels_data`: a Python dict from band identifier to band array,
embedded as an association list (keys unique in an actual dict). -/
abbrev BandSet := List (String × Mat)

/-- The errors the embedded code can signal.  `keyError`, `indexError`,
`valueError` and `attributeError` mirror the Python exceptions the source can
actually raise.  `missingBandError`, `modelNotLoadedError` and `maskLoadError`
are modelled from the spec: the spec's error taxonomy names them, but no such
exception class exists anywhere in the source; they are included so that
statements "fails with a MissingBandError" can be expressed and compared with
what the code really raises. -/
inductive PyError where
  | keyError (key : String)
  | indexError
  | valueError
  | attributeError
  | missingBandError (band : String)
  | modelNotLoadedError
  | maskLoadError
deriving DecidableEq

/-- Whether an error is the spec's `MissingBandError`. -/
def PyError.isMissingBand : PyError → Bool
  | .missingBandError _ => true
  | _ => false

/-- Whether an error is the spec's `ModelNotLoadedError`. -/
def PyError.isModelNotLoaded : PyError → Bool
  | .modelNotLoadedError => true
  | _ => false

/-- Whether an error is the spec's `MaskLoadError`. -/
def PyError.isMaskLoad : PyError → Bool
  | .maskLoadError => true
  | _ => false

/-- Python dict access `d[ch]` returning `none` on a missing key
(which the interpreter turns into `KeyError(ch)`). -/
def lookupBand : BandSet → String → Option Mat
  | [], _ => none
  | (k, v) :: rest, ch => if k = ch then some v else lookupBand rest ch

/-- Lift an optional value into `Except`, raising `e` when absent. -/
def ofOption (o : Option α) (e : PyError) : Except PyError α :=
  match o with
  | some a => .ok a
  | none => .error e

/-- Element access `m[i][j]` with numpy's guarantee of rectangularity supplied
separately; out-of-range reads default to `0` / the empty row. -/
def matGet (m : Mat) (i j : Nat) : ℚ :=
  (m.getD i []).getD j 0

/-- Element access into the SCL array. -/
def sclGet (m : SCLMat) (i j : Nat) : Nat :=
  (m.getD i []).getD j 0

/-- Elementwise combination of two equal-shape arrays (numpy broadcasting of
two same-shape operands). -/
def matZip (f : ℚ → ℚ → ℚ) (A B : Mat) : Mat :=
  List.zipWith (List.zipWith f) A B

/-- Elementwise map (numpy unary ufunc / array-scalar operation). -/
def matMap (f : ℚ → ℚ) (A : Mat) : Mat :=
  A.map (List.map f)

/-- numpy `A + B`. -/
def matAdd (A B : Mat) : Mat := matZip (· + ·) A B

/-- numpy `A - B`. -/
def matSub (A B : Mat) : Mat := matZip (· - ·) A B

/-- numpy `A * c` for a scalar `c`. -/
def matSMul (A : Mat) (c : ℚ) : Mat := matMap (· * c) A

/-- `m` is a rectangular `nx × ny` array (every numpy 2-D array is). -/
def IsRect (m : Mat) (nx ny : Nat) : Prop :=
  m.length = nx ∧ ∀ row ∈ m, row.length = ny

-- ==========================================================================
-- AFAI_Index (src/AFAI.py)
-- ==========================================================================

/-- `AFAI_Index.required_channels`. -/
def AFAI_required_channels : List String := ["B04", "B06", "B8A"]

/-- `meta_channels["RED"]["lambda"]`. -/
def AFAI_RED_lambda : ℚ := 665

/-- `meta_channels["NIR"]["lambda"]`. -/
def AFAI_NIR_lambda : ℚ := 740

/-- `meta_channels["SWIR"]["lambda"]`. -/
def AFAI_SWIR_lambda : ℚ := 865

/-- The interpolated baseline `R_NIR_prime = RED + (SWIR - RED) * (λNIR - λRED)/(λSWIR - λRED)`
from `AFAI_Index.compute`. -/
def afaiBaseline (RED SWIR : Mat) : Mat :=
  matAdd RED (matSMul (matSub SWIR RED)
    ((AFAI_NIR_lambda - AFAI_RED_lambda) / (AFAI_SWIR_lambda - AFAI_RED_lambda)))

/-- `AFAI_Index.compute(channels_data)`: reads the three bands out of the dict
(`KeyError` when absent, in access order RED, NIR, SWIR) and returns
`NIR - R_NIR_prime`. -/
def afaiCompute (cd : BandSet) : Except PyError Mat := do
  let RED ← ofOption (lookupBand cd "B04") (.keyError "B04")
  let NIR ← ofOption (lookupBand cd "B06") (.keyError "B06")
  let SWIR ← ofOption (lookupBand cd "B8A") (.keyError "B8A")
  pure (matSub NIR (afaiBaseline RED SWIR))

-- ==========================================================================
-- Generic list lemmas used throughout
-- ==========================================================================

theorem getD_lt_mem {α : Type} (l : List α) (i : Nat) (d : α) (h : i < l.length) :
    l.getD i d ∈ l := by
  induction l generalizing i with
  | nil => simp at h
  | cons x xs ih =>
    cases i with
    | zero => simp
    | succ n =>
      simp only [List.getD_cons_succ]
      exact List.mem_cons_of_mem _ (ih n (by simpa using h))

theorem getD_zipWith_lt {α β γ : Type} (f : α → β → γ) (A : List α) (B : List β)
    (i : Nat) (dA : α) (dB : β) (dC : γ)
    (hA : i < A.length) (hB : i < B.length) :
    (List.zipWith f A B).getD i dC = f (A.getD i dA) (B.getD i dB) := by
  induction A generalizing B i with
  | nil => simp at hA
  | cons x xs ih =>
    cases B with
    | nil => simp at hB
    | cons y ys =>
      cases i with
      | zero => simp
      | succ n =>
        simp only [List.zipWith_cons_cons, List.getD_cons_succ]
        exact ih ys n (by simpa using hA) (by simpa using hB)

theorem getD_map_lt {α β : Type} (g : α → β) (A : List α) (i : Nat)
    (dA : α) (dB : β) (h : i < A.length) :
    (A.map g).getD i dB = g (A.getD i dA) := by
  induction A generalizing i with
  | nil => simp at h
  | cons x xs ih =>
    cases i with
    | zero => simp
    | succ n =>
      simp only [List.map_cons, List.getD_cons_succ]
      exact ih n (by simpa using h)

theorem IsRect.row_len {m : Mat} {nx ny : Nat} (h : IsRect m nx ny)
    (i : Nat) (hi : i < nx) : (m.getD i []).length = ny :=
  h.2 _ (getD_lt_mem m i [] (h.1 ▸ hi))

theorem matGet_zip {A B : Mat} {nx ny : Nat} (f : ℚ → ℚ → ℚ)
    (hA : IsRect A nx ny) (hB : IsRect B nx ny)
    (i j : Nat) (hi : i < nx) (hj : j < ny) :
    matGet (matZip f A B) i j = f (matGet A i j) (matGet B i j) := by
  unfold matGet matZip
  have hAi : i < A.length := hA.1 ▸ hi
  have hBi : i < B.length := hB.1 ▸ hi
  rw [getD_zipWith_lt (List.zipWith f) A B i [] [] [] hAi hBi]
  exact getD_zipWith_lt f _ _ j 0 0 0 (by rw [hA.row_len i hi]; exact hj)
    (by rw [hB.row_len i hi]; exact hj)

theorem matGet_map {A : Mat} {nx ny : Nat} (g : ℚ → ℚ)
    (hA : IsRect A nx ny) (i j : Nat) (hi : i < nx) (hj : j < ny) :
    matGet (matMap g A) i j = g (matGet A i j) := by
  unfold matGet matMap
  have hAi : i < A.length := hA.1 ▸ hi
  rw [getD_map_lt (List.map g) A i [] [] hAi]
  exact getD_map_lt g _ j 0 0 (by rw [hA.row_len i hi]; exact hj)

theorem mem_zipWith {α β γ : Type} (f : α → β → γ) :
    ∀ {A : List α} {B : List β} {c : γ}, c ∈ List.zipWith f A B →
      ∃ a ∈ A, ∃ b ∈ B, c = f a b := by
  intro A
  induction A with
  | nil => intro B c h; simp at h
  | cons x xs ih =>
    intro B c h
    cases B with
    | nil => simp at h
    | cons y ys =>
      simp only [List.zipWith_cons_cons, List.mem_cons] at h
      rcases h with h | h
      · exact ⟨x, by simp, y, by simp, h⟩
      · obtain ⟨a, ha, b, hb, hc⟩ := ih h
        exact ⟨a, List.mem_cons_of_mem _ ha, b, List.mem_cons_of_mem _ hb, hc⟩

theorem IsRect.zip {A B : Mat} {nx ny : Nat} (f : ℚ → ℚ → ℚ)
    (hA : IsRect A nx ny) (hB : IsRect B nx ny) :
    IsRect (matZip f A B) nx ny := by
  constructor
  · simp [matZip, hA.1, hB.1]
  · intro row hrow
    obtain ⟨a, ha, b, hb, hrow⟩ := mem_zipWith _ hrow
    subst hrow
    simp [hA.2 a ha, hB.2 b hb]

theorem IsRect.rmap {A : Mat} {nx ny : Nat} (g : ℚ → ℚ)
    (hA : IsRect A nx ny) : IsRect (matMap g A) nx ny := by
  constructor
  · simp [matMap, hA.1]
  · intro row hrow
    simp only [matMap, List.mem_map] at hrow
    obtain ⟨a, ha, rfl⟩ := hrow
    simp [hA.2 a ha]

-- ==========================================================================
-- Concrete 2×2 scenario for AFAI (spec section 8)
-- ==========================================================================

/-- RED band of the spec's 2×2 scenario. -/
def afaiRED : Mat := [[1/10, 2/10], [1/10, 2/10]]

/-- NIR band of the spec's 2×2 scenario. -/
def afaiNIR : Mat := [[3/10, 3/10], [3/10, 3/10]]

/-- SWIR band of the spec's 2×2 scenario. -/
def afaiSWIR : Mat := [[5/10, 4/10], [5/10, 4/10]]

/-- The 2×2 scenario band set. -/
def afaiExampleBands : BandSet :=
  [("B04", afaiRED), ("B06", afaiNIR), ("B8A", afaiSWIR)]

theorem ok_bind {α β : Type} (a : α) (f : α → Except PyError β) :
    (Except.ok a >>= f) = f a := rfl

theorem error_bind {α β : Type} (e : PyError) (f : α → Except PyError β) :
    ((Except.error e : Except PyError α) >>= f) = .error e := rfl

instance {m : Mat} {nx ny : Nat} : Decidable (IsRect m nx ny) := by
  unfold IsRect
  exact instDecidableAnd

theorem matGet_sub {A B : Mat} {nx ny : Nat}
    (hA : IsRect A nx ny) (hB : IsRect B nx ny)
    (i j : Nat) (hi : i < nx) (hj : j < ny) :
    matGet (matSub A B) i j = matGet A i j - matGet B i j :=
  matGet_zip _ hA hB i j hi hj

theorem matGet_add {A B : Mat} {nx ny : Nat}
    (hA : IsRect A nx ny) (hB : IsRect B nx ny)
    (i j : Nat) (hi : i < nx) (hj : j < ny) :
    matGet (matAdd A B) i j = matGet A i j + matGet B i j :=
  matGet_zip _ hA hB i j hi hj

theorem matGet_smul {A : Mat} {nx ny : Nat} (c : ℚ)
    (hA : IsRect A nx ny) (i j : Nat) (hi : i < nx) (hj : j < ny) :
    matGet (matSMul A c) i j = matGet A i j * c :=
  matGet_map _ hA i j hi hj

/-- C1: for every band set containing B04, B06, B8A as equal-shape arrays,
`AFAI_Index.compute` returns at every pixel
`NIR - (RED + (SWIR - RED) * (740-665)/(865-665))`; on the 2×2 scenario the
baseline at (0,0) is exactly 1/4 = 0.25 and the score at (0,0) (indeed the
whole first column) is exactly 1/20 = 0.05. -/
theorem C1_afai_formula (cd : BandSet) (RED NIR SWIR : Mat) (nx ny : Nat)
    (hR : lookupBand cd "B04" = some RED)
    (hN : lookupBand cd "B06" = some NIR)
    (hS : lookupBand cd "B8A" = some SWIR)
    (hRr : IsRect RED nx ny) (hNr : IsRect NIR nx ny) (hSr : IsRect SWIR nx ny) :
    (∃ out, afaiCompute cd = .ok out ∧ IsRect out nx ny ∧
      ∀ i j, i < nx → j < ny →
        matGet out i j =
          matGet NIR i j - (matGet RED i j +
            (matGet SWIR i j - matGet RED i j) * ((740 - 665) / (865 - 665)))) ∧
    matGet (afaiBaseline afaiRED afaiSWIR) 0 0 = 1/4 ∧
    afaiCompute afaiExampleBands = .ok [[1/20, 1/40], [1/20, 1/40]] := by
  refine ⟨?_, ?_, ?_⟩
  · have hout : afaiCompute cd = .ok (matSub NIR (afaiBaseline RED SWIR)) := by
      simp [afaiCompute, hR, hN, hS, ofOption, ok_bind]
    have h1 : IsRect (matSub SWIR RED) nx ny := IsRect.zip _ hSr hRr
    have h2 : IsRect (matSMul (matSub SWIR RED)
        ((AFAI_NIR_lambda - AFAI_RED_lambda) /
          (AFAI_SWIR_lambda - AFAI_RED_lambda))) nx ny := IsRect.rmap _ h1
    have hbase : IsRect (afaiBaseline RED SWIR) nx ny := IsRect.zip _ hRr h2
    refine ⟨matSub NIR (afaiBaseline RED SWIR), hout, IsRect.zip _ hNr hbase, ?_⟩
    intro i j hi hj
    rw [matGet_sub hNr hbase i j hi hj]
    unfold afaiBaseline
    rw [matGet_add hRr h2 i j hi hj, matGet_smul _ h1 i j hi hj,
      matGet_sub hSr hRr i j hi hj]
    norm_num [AFAI_NIR_lambda, AFAI_RED_lambda, AFAI_SWIR_lambda]
  · norm_num [matGet, afaiBaseline, matAdd, matSMul, matSub, matZip, matMap,
      afaiRED, afaiSWIR, AFAI_NIR_lambda, AFAI_RED_lambda, AFAI_SWIR_lambda]
  · have e1 : lookupBand afaiExampleBands "B04" = some afaiRED := rfl
    have e2 : lookupBand afaiExampleBands "B06" = some afaiNIR := rfl
    have e3 : lookupBand afaiExampleBands "B8A" = some afaiSWIR := rfl
    simp only [afaiCompute, e1, e2, e3, ofOption, ok_bind]
    norm_num [afaiBaseline, matSub, matAdd, matSMul, matZip, matMap,
      afaiRED, afaiNIR, afaiSWIR, AFAI_NIR_lambda, AFAI_RED_lambda,
      AFAI_SWIR_lambda]
    rfl

/-- Witness: C1 instantiated on the spec's concrete 2×2 scenario. -/
theorem C1_afai_formula_witness :
    lookupBand afaiExampleBands "B04" = some afaiRED ∧
    ((∃ out, afaiCompute afaiExampleBands = .ok out ∧ IsRect out 2 2 ∧
      ∀ i j, i < 2 → j < 2 →
        matGet out i j =
          matGet afaiNIR i j - (matGet afaiRED i j +
            (matGet afaiSWIR i j - matGet afaiRED i j) * ((740 - 665) / (865 - 665)))) ∧
    matGet (afaiBaseline afaiRED afaiSWIR) 0 0 = 1/4 ∧
    afaiCompute afaiExampleBands = .ok [[1/20, 1/40], [1/20, 1/40]]) :=
  ⟨rfl,
   C1_afai_formula afaiExampleBands afaiRED afaiNIR afaiSWIR 2 2
     rfl rfl rfl
     ⟨rfl, by intro r h; simp [afaiRED] at h; rcases h with rfl | rfl <;> rfl⟩
     ⟨rfl, by intro r h; simp [afaiNIR] at h; rcases h with rfl | rfl <;> rfl⟩
     ⟨rfl, by intro r h; simp [afaiSWIR] at h; rcases h with rfl | rfl <;> rfl⟩⟩

-- ==========================================================================
-- detect_sargassum (src/detect_sargassum.py)
-- ==========================================================================

/-- `scl` is a rectangular `nx × ny` classification array. -/
def IsRectN (m : SCLMat) (nx ny : Nat) : Prop :=
  m.length = nx ∧ ∀ row ∈ m, row.length = ny

theorem IsRectN.scl_row_len {m : SCLMat} {nx ny : Nat} (h : IsRectN m nx ny)
    (i : Nat) (hi : i < nx) : (m.getD i []).length = ny :=
  h.2 _ (getD_lt_mem m i [] (h.1 ▸ hi))

instance {m : SCLMat} {nx ny : Nat} : Decidable (IsRectN m nx ny) := by
  unfold IsRectN
  exact instDecidableAnd

/-- The thresholding step of `detect_sargassum`:
`result = np.where(result >= threshold, 1, 0)` (the `uint8` cast only changes
the storage type of the values 0 and 1). -/
def applyThreshold (t : ℚ) (m : Mat) : Mat :=
  m.map (List.map (fun x => if t ≤ x then 1 else 0))

/-- The masking step of `detect_sargassum` for an available SCL of the same
shape: `result[~SCL_mask] = sentinel` where `SCL_mask = np.isin(SCL,
mask_keep_categs)`, i.e. every cell whose class code is not in the keep list
is replaced by the sentinel. -/
def applyMaskStep (keep : List Nat) (scl : SCLMat) (sentinel : ℚ) (m : Mat) : Mat :=
  List.zipWith
    (fun srow mrow =>
      List.zipWith (fun c x => if c ∈ keep then x else sentinel) srow mrow)
    scl m

/-- The observable behaviour of one `detect_sargassum` run: whether the
SCL (scene classification) was requested from `Sentinel2.load_SCL`, and the
returned array or the Python exception that escaped. -/
structure DetectRun where
  sclRequested : Bool
  outcome : Except PyError Mat

/-- `detect_sargassum(dataset_path, sarg_index, ...)` after the band-loading
step.  `sargCompute` is the pluggable `sarg_index.compute` closure (with any
`compute_kwargs` already applied), `cd` the loaded channel dict, and `scl`
the value returned by `Sentinel2.load_SCL` — `none` when no SCL image is
found (`load_SCL` prints a warning and returns `None` instead of raising).

Faithfulness notes, in source order:
* `SCL = Sentinel2.load_SCL(dataset_path, resolution)` is executed
  unconditionally, before the `apply_mask` branch, so `sclRequested := true`
  on every run;
* when `verbose` and the SCL is `None`, the mask-report block dereferences
  `SCL.size` and dies with `AttributeError`;
* the threshold step runs before the mask step; the mask sentinel is `2`
  when a threshold was given and `masked_value` otherwise;
* when the SCL is `None` and `verbose` is off, `SCL_mask = np.isin(None, …)`
  is the 0-d array `False`, and `result[~SCL_mask] = sentinel` with a 0-d
  `True` index overwrites every cell. -/
def detect_sargassum (sargCompute : BandSet → Except PyError Mat)
    (cd : BandSet) (scl : Option SCLMat) (apply_mask : Bool)
    (mask_keep_categs : List Nat) (masked_value : ℚ)
    (threshold : Option ℚ) (verbose : Bool) : DetectRun :=
  { sclRequested := true
    outcome :=
      if verbose && scl.isNone then .error .attributeError
      else do
        let result ← sargCompute cd
        let result := match threshold with
          | some t => applyThreshold t result
          | none => result
        let sentinel : ℚ := if threshold.isSome then 2 else masked_value
        if apply_mask then
          match scl with
          | some sclm => pure (applyMaskStep mask_keep_categs sclm sentinel result)
          | none => pure (matMap (fun _ => sentinel) result)
        else pure result }

theorem matGet_maskStep {sclm : SCLMat} {m : Mat} {nx ny : Nat}
    (keep : List Nat) (sentinel : ℚ)
    (hs : IsRectN sclm nx ny) (hm : IsRect m nx ny)
    (i j : Nat) (hi : i < nx) (hj : j < ny) :
    matGet (applyMaskStep keep sclm sentinel m) i j =
      if sclGet sclm i j ∈ keep then matGet m i j else sentinel := by
  unfold applyMaskStep matGet sclGet
  rw [getD_zipWith_lt _ sclm m i [] [] [] (hs.1 ▸ hi) (hm.1 ▸ hi)]
  rw [getD_zipWith_lt _ _ _ j 0 0 0
    (by rw [hs.scl_row_len i hi]; exact hj) (by rw [hm.row_len i hi]; exact hj)]

-- ==========================================================================
-- C3: the thresholding step
-- ==========================================================================

/-- C3: in every successful `detect_sargassum` run with a numeric threshold
`t`, the thresholding step maps every cell with raw score ≥ t to 1 and every
other cell to 0, so the thresholded array contains only 0 and 1 (shown here
with `apply_mask` off, where the thresholded array is also the run's final
result). -/
theorem C3_threshold_step (sarg : BandSet → Except PyError Mat)
    (cd : BandSet) (raw : Mat) (sclm : SCLMat) (keep : List Nat)
    (mval : ℚ) (t : ℚ) (v : Bool) (nx ny : Nat)
    (hraw : sarg cd = .ok raw) (hr : IsRect raw nx ny) :
    (detect_sargassum sarg cd (some sclm) false keep mval (some t) v).outcome
      = .ok (applyThreshold t raw) ∧
    ∀ i j, i < nx → j < ny →
      ((t ≤ matGet raw i j → matGet (applyThreshold t raw) i j = 1) ∧
       (matGet raw i j < t → matGet (applyThreshold t raw) i j = 0) ∧
       (matGet (applyThreshold t raw) i j = 0 ∨
        matGet (applyThreshold t raw) i j = 1)) := by
  constructor
  · simp [detect_sargassum, hraw, ok_bind]
  · intro i j hi hj
    have hm : applyThreshold t raw
        = matMap (fun x => if t ≤ x then 1 else 0) raw := rfl
    rw [hm, matGet_map _ hr i j hi hj]
    by_cases hc : t ≤ matGet raw i j
    · simp [hc]
    · simp [hc]

/-- Witness: C3 on a concrete 2×2 run (constant index, threshold 1/30). -/
theorem C3_threshold_step_witness :
    (fun _ : BandSet => (.ok [[1/20, 1/40], [1/20, 1/40]] : Except PyError Mat))
        afaiExampleBands = .ok [[1/20, 1/40], [1/20, 1/40]] ∧
    ((detect_sargassum
        (fun _ => .ok [[1/20, 1/40], [1/20, 1/40]]) afaiExampleBands
        (some [[6, 6], [6, 6]]) false [6] 0 (some (1/30)) true).outcome
      = .ok (applyThreshold (1/30) [[1/20, 1/40], [1/20, 1/40]]) ∧
    ∀ i j, i < 2 → j < 2 →
      ((1/30 ≤ matGet [[1/20, 1/40], [1/20, 1/40]] i j →
          matGet (applyThreshold (1/30) [[1/20, 1/40], [1/20, 1/40]]) i j = 1) ∧
       (matGet [[1/20, 1/40], [1/20, 1/40]] i j < 1/30 →
          matGet (applyThreshold (1/30) [[1/20, 1/40], [1/20, 1/40]]) i j = 0) ∧
       (matGet (applyThreshold (1/30) [[1/20, 1/40], [1/20, 1/40]]) i j = 0 ∨
        matGet (applyThreshold (1/30) [[1/20, 1/40], [1/20, 1/40]]) i j = 1))) :=
  ⟨rfl,
   C3_threshold_step (fun _ => .ok [[1/20, 1/40], [1/20, 1/40]])
     afaiExampleBands [[1/20, 1/40], [1/20, 1/40]] [[6, 6], [6, 6]]
     [6] 0 (1/30) true 2 2 rfl
     ⟨rfl, by intro r h; simp at h; rcases h with rfl | rfl <;> rfl⟩⟩

-- ==========================================================================
-- C4: evaluation metrics of ASI_Index.test_model
-- ==========================================================================

/-- The metric record derived in `ASI_Index.test_model` from the 2×2
confusion matrix. -/
structure ASIMetrics where
  sensitivity : ℚ
  specificity : ℚ
  miss_rate : ℚ
  fall_out : ℚ
  precision : ℚ
  accuracy : ℚ
  F1 : ℚ
deriving DecidableEq

/-- The metric block of `ASI_Index.test_model` (src/ASI.py lines 244-252),
formula for formula.  Note the source computes `fall_out = FN/(FP+TN)` —
with FN, not FP, in the numerator — while printing it as
"Fall-out (false positives)" next to the FP count. -/
def asiTestMetrics (TP FP FN TN : ℚ) : ASIMetrics :=
  { sensitivity := TP/(TP+FN)
    specificity := TN/(TN+FP)
    miss_rate := FN/(FN+TP)
    fall_out := FN/(FP+TN)
    precision := TP/(TP+FP)
    accuracy := (TP+TN)/((TP+FN) + (TN+FP))
    F1 := 2*TP/(2*TP + FP + FN) }

/-- C4: on the confusion matrix TP=8, FP=2, FN=1, TN=9 the code's metrics
match the spec's values for sensitivity, specificity, precision, miss rate,
accuracy and F1, but its fall-out is FN/(FP+TN) = 1/11, not the standard
FP/(FP+TN) = 2/11 the claim requires — the code contradicts its own output
label "Fall-out (false positives)". -/
theorem C4_metrics_fall_out_bug :
    (asiTestMetrics 8 2 1 9).sensitivity = 8/9 ∧
    (asiTestMetrics 8 2 1 9).specificity = 9/11 ∧
    (asiTestMetrics 8 2 1 9).precision = 8/10 ∧
    (asiTestMetrics 8 2 1 9).miss_rate = 1/9 ∧
    (asiTestMetrics 8 2 1 9).accuracy = 17/20 ∧
    (asiTestMetrics 8 2 1 9).F1 = 16/19 ∧
    (asiTestMetrics 8 2 1 9).fall_out = 1/11 ∧
    (asiTestMetrics 8 2 1 9).fall_out ≠ 2/(2+9) := by
  norm_num [asiTestMetrics]

-- ==========================================================================
-- C7: the SCL request is unconditional
-- ==========================================================================

/-- C7 counterexample: a run with `apply_mask=False` still requests the SCL
from the Validity Mask Loader — `load_SCL` is called unconditionally before
the `apply_mask` branch — refuting "requests the scene-classification array
only when apply_mask is true". -/
theorem C7_mask_request_cx :
    (detect_sargassum afaiCompute afaiExampleBands (some [[6, 6], [6, 6]])
      false [6] 0 none false).sclRequested = true := rfl

/-- C7 amended: `detect_sargassum` requests the SCL on every run, whatever
`apply_mask` is; when the SCL is unavailable, `load_SCL` returns `None` and
no `MaskLoadError` exists or is raised — a verbose run (the default) then
dies with a generic `AttributeError` (`None.size`) even when
`apply_mask=False`; when the SCL is available, an `apply_mask=False` run's
result does not depend on its contents. -/
theorem C7_mask_request_amended (sarg : BandSet → Except PyError Mat)
    (cd : BandSet) (scl : Option SCLMat) (am : Bool) (keep : List Nat)
    (mval : ℚ) (t : Option ℚ) (v : Bool) :
    ((detect_sargassum sarg cd scl am keep mval t v).sclRequested = true) ∧
    (scl = none → v = true →
      (detect_sargassum sarg cd scl am keep mval t v).outcome
          = .error .attributeError ∧
      PyError.attributeError.isMaskLoad = false) ∧
    (∀ m1 m2 : SCLMat,
      (detect_sargassum sarg cd (some m1) false keep mval t v).outcome =
      (detect_sargassum sarg cd (some m2) false keep mval t v).outcome) := by
  refine ⟨rfl, ?_, ?_⟩
  · rintro rfl rfl
    exact ⟨rfl, rfl⟩
  · intro m1 m2
    simp [detect_sargassum]

/-- Witness: C7 amended instantiated on a run with no SCL available and
`apply_mask=False`, which nevertheless requested the SCL and failed. -/
theorem C7_mask_request_amended_witness :
    (detect_sargassum afaiCompute afaiExampleBands none false [6] 0 none
        true).sclRequested = true ∧
    (detect_sargassum afaiCompute afaiExampleBands none false [6] 0 none
        true).outcome = .error .attributeError := by
  have h := C7_mask_request_amended afaiCompute afaiExampleBands none false
    [6] 0 none true
  exact ⟨h.1, (h.2.1 rfl rfl).1⟩

-- ==========================================================================
-- C2: mask semantics
-- ==========================================================================

/-- C2: in every successful `detect_sargassum` run with `apply_mask=True`,
exactly the cells whose SCL code is not in `mask_keep_categs` are replaced by
the sentinel — 2 when a threshold was given, `masked_value` otherwise — and
every cell whose code is kept holds its thresholded (resp. raw) score; with a
threshold the returned array holds only the values 0, 1 and 2. -/
theorem C2_mask_semantics (sarg : BandSet → Except PyError Mat) (cd : BandSet)
    (raw : Mat) (sclm : SCLMat) (keep : List Nat) (mval : ℚ) (t : Option ℚ)
    (v : Bool) (nx ny : Nat)
    (hraw : sarg cd = .ok raw) (hr : IsRect raw nx ny)
    (hs : IsRectN sclm nx ny) :
    ∃ res,
      (detect_sargassum sarg cd (some sclm) true keep mval t v).outcome
        = .ok res ∧
      (∀ i j, i < nx → j < ny →
        ((sclGet sclm i j ∉ keep →
            matGet res i j = if t.isSome then 2 else mval) ∧
         (sclGet sclm i j ∈ keep →
            matGet res i j = match t with
              | some tv => if tv ≤ matGet raw i j then 1 else 0
              | none => matGet raw i j))) ∧
      (t.isSome = true → ∀ i j, i < nx → j < ny →
        (matGet res i j = 0 ∨ matGet res i j = 1 ∨ matGet res i j = 2)) := by
  cases t with
  | none =>
    refine ⟨applyMaskStep keep sclm mval raw, ?_, ?_, by simp⟩
    · simp [detect_sargassum, hraw, ok_bind]
    · intro i j hi hj
      rw [matGet_maskStep keep mval hs hr i j hi hj]
      constructor
      · intro hmem
        simp [hmem]
      · intro hmem
        simp [hmem]
  | some tv =>
    have hth : applyThreshold tv raw
        = matMap (fun x => if tv ≤ x then 1 else 0) raw := rfl
    have hthr : IsRect (applyThreshold tv raw) nx ny := by
      rw [hth]; exact IsRect.rmap _ hr
    refine ⟨applyMaskStep keep sclm 2 (applyThreshold tv raw), ?_, ?_, ?_⟩
    · simp [detect_sargassum, hraw, ok_bind]
    · intro i j hi hj
      rw [matGet_maskStep keep 2 hs hthr i j hi hj]
      constructor
      · intro hmem
        simp [hmem]
      · intro hmem
        simp only [hmem, if_true]
        rw [hth, matGet_map _ hr i j hi hj]
    · intro _ i j hi hj
      rw [matGet_maskStep keep 2 hs hthr i j hi hj]
      by_cases hmem : sclGet sclm i j ∈ keep
      · rw [hth, if_pos hmem, matGet_map _ hr i j hi hj]
        by_cases hc : tv ≤ matGet raw i j
        · simp [hc]
        · simp [hc]
      · simp [hmem]

/-- Witness: C2 on a concrete 2×2 run with SCL codes [[6,4],[4,6]], keep
list [6] and threshold 1/30. -/
theorem C2_mask_semantics_witness :
    (fun _ : BandSet => (.ok [[1/20, 1/40], [1/20, 1/40]] : Except PyError Mat))
        afaiExampleBands = .ok [[1/20, 1/40], [1/20, 1/40]] ∧
    ∃ res,
      (detect_sargassum (fun _ => .ok [[1/20, 1/40], [1/20, 1/40]])
          afaiExampleBands (some [[6, 4], [4, 6]]) true [6] 0
          (some (1/30)) true).outcome = .ok res ∧
      (∀ i j, i < 2 → j < 2 →
        ((sclGet [[6, 4], [4, 6]] i j ∉ [6] →
            matGet res i j = if (some (1/30 : ℚ)).isSome then 2 else 0) ∧
         (sclGet [[6, 4], [4, 6]] i j ∈ [6] →
            matGet res i j = match some (1/30 : ℚ) with
              | some tv =>
                  if tv ≤ matGet [[1/20, 1/40], [1/20, 1/40]] i j then 1 else 0
              | none => matGet [[1/20, 1/40], [1/20, 1/40]] i j))) ∧
      ((some (1/30 : ℚ)).isSome = true → ∀ i j, i < 2 → j < 2 →
        (matGet res i j = 0 ∨ matGet res i j = 1 ∨ matGet res i j = 2)) :=
  ⟨rfl,
   C2_mask_semantics (fun _ => .ok [[1/20, 1/40], [1/20, 1/40]])
     afaiExampleBands [[1/20, 1/40], [1/20, 1/40]] [[6, 4], [4, 6]]
     [6] 0 (some (1/30)) true 2 2 rfl
     ⟨rfl, by intro r h; simp at h; rcases h with rfl | rfl <;> rfl⟩
     (by decide)⟩

-- ==========================================================================
-- ASI_Index (src/ASI.py)
-- ==========================================================================

/-- `ASI_Index.required_channels` (fixed, model-defined order). -/
def ASI_required_channels : List String :=
  ["B02", "B03", "B04", "B05", "B06", "B07", "B8A", "B11", "B12"]

/-- The opaque keras model: an expected feature-vector width (the trained
network's `input_shape`) and a per-row scoring function. -/
structure LearnedModel where
  inputWidth : Nat
  score : List ℚ → ℚ

/-- The mutable instance state of an `ASI_Index` object: `self.model`
(`None` until `load_model` ran), `self.batch_size` and `self.verbose`. -/
structure ASIState where
  model : Option LearnedModel
  batch_size : Option Nat
  verbose : Bool

/-- `ASI_Index.__init__(model_path, verbose, batch_size)`: `model` is `None`
unless a model path was given and loaded (the keras load itself is external,
so the constructor takes the already-loaded model, or `none`). -/
def ASI_init (loaded : Option LearnedModel) (batch_size : Option Nat)
    (verbose : Bool) : ASIState :=
  { model := loaded, batch_size := batch_size, verbose := verbose }

/-- The first statement of `ASI_Index.compute`: `if batch_size is not None:
self.batch_size = batch_size`. -/
def asiUpdateBS (st : ASIState) (batch_size : Option Nat) : ASIState :=
  match batch_size with
  | some b => { st with batch_size := some b }
  | none => st

/-- `band.reshape((NTOT,))`: flatten row-major, `ValueError` when the band's
total size differs from `NTOT`. -/
def flattenTo (ntot : Nat) (m : Mat) : Except PyError (List ℚ) :=
  if m.flatten.length = ntot then .ok m.flatten else .error .valueError

/-- One iteration `data[:, i] = channels_data[self.required_channels[i]]
.reshape((NTOT,))` of the assembly loop: `IndexError` when `i` runs past the
nine required channels, `KeyError` when the channel is not in the dict. -/
def colAt (cd : BandSet) (ntot : Nat) (i : Nat) : Except PyError (List ℚ) :=
  match ASI_required_channels.get? i with
  | none => .error .indexError
  | some ch =>
    match lookupBand cd ch with
    | none => .error (.keyError ch)
    | some b => flattenTo ntot b

/-- The column-assembly loop `for i in range(NCH)` of `ASI_Index.compute`,
producing the columns of the `(NTOT, NCH)` feature matrix in order and
propagating the first exception. -/
def buildCols (cd : BandSet) (ntot : Nat) : Nat → Nat → Except PyError (List (List ℚ))
  | _, 0 => .ok []
  | start, c + 1 => do
    let col ← colAt cd ntot start
    let rest ← buildCols cd ntot (start + 1) c
    .ok (col :: rest)

/-- Fuel-driven batch partition (the fuel is instantiated with the list
length, which always suffices). -/
def chunksGo {α : Type} : Nat → Nat → List α → List (List α)
  | _, _, [] => []
  | 0, _, xs => [xs]
  | _ + 1, 0, xs => [xs]
  | f + 1, n + 1, x :: xs =>
    (x :: xs).take (n + 1) :: chunksGo f (n + 1) ((x :: xs).drop (n + 1))

/-- Partition a list into consecutive batches of size `n` (the last batch may
be shorter), as keras's `predict` does with `batch_size=n`. -/
def chunks {α : Type} (n : Nat) (xs : List α) : List (List α) :=
  chunksGo xs.length n xs

theorem chunksGo_join {α : Type} (n : Nat) :
    ∀ (f : Nat) (xs : List α), xs.length ≤ f →
      (chunksGo f (n + 1) xs).flatten = xs := by
  intro f
  induction f with
  | zero =>
    intro xs hf
    have hx : xs = [] := List.length_eq_zero.mp (Nat.le_zero.mp hf)
    subst hx
    simp [chunksGo]
  | succ f ih =>
    intro xs hf
    cases xs with
    | nil => simp [chunksGo]
    | cons x tl =>
      have hrec := ih ((x :: tl).drop (n + 1))
        (by simp only [List.length_drop]; simp at hf ⊢; omega)
      simp only [chunksGo, List.flatten_cons, hrec]
      exact List.take_append_drop _ _

theorem chunks_join {α : Type} (n : Nat) (hn : 1 ≤ n) (xs : List α) :
    (chunks n xs).flatten = xs := by
  obtain ⟨m, rfl⟩ : ∃ m, n = m + 1 := ⟨n - 1, by omega⟩
  exact chunksGo_join m xs.length xs le_rfl

/-- `self.model.predict(data, verbose=..., batch_size=...)`: keras validates
the feature-matrix width against the model's input shape (`ValueError` on
mismatch), scores every row, in batches of `batch_size` when one is set
(keras's automatic batching when `None`), and concatenates the per-batch
outputs in order. -/
def predictModel (m : LearnedModel) (ncols : Nat) (rows : List (List ℚ))
    (bs : Option Nat) : Except PyError (List ℚ) :=
  if ncols = m.inputWidth then
    .ok (match bs with
      | some b => ((chunks b rows).map (fun batch => batch.map m.score)).flatten
      | none => rows.map m.score)
  else .error .valueError

/-- `result.reshape((NX, NY))`: `ValueError` unless the sizes agree. -/
def reshapeTo (nx ny : Nat) (xs : List ℚ) : Except PyError Mat :=
  if xs.length = nx * ny then .ok (chunks ny xs) else .error .valueError

/-- `ASI_Index.compute(channels_data, batch_size)`: optionally overwrite
`self.batch_size`, read `NCH = len(channels_data)` and the shape of the
`required_channels[0]` band, assemble the `(NTOT, NCH)` feature matrix
column-by-column (rows = pixels), run the model over it in batches, and
reshape the scores back to `(NX, NY)`.  Returns the instance state after the
call together with the result or escaped exception. -/
def asiCompute (st : ASIState) (cd : BandSet) (batch_size : Option Nat) :
    ASIState × Except PyError Mat :=
  let st' := asiUpdateBS st batch_size
  (st',
    do
      let b0 ← ofOption (lookupBand cd "B02") (.keyError "B02")
      let NX := b0.length
      let NY := (b0.headD []).length
      let cols ← buildCols cd (NX * NY) 0 cd.length
      let data := cols.transpose
      let m ← ofOption st'.model .attributeError
      let scores ← predictModel m cd.length data st'.batch_size
      reshapeTo NX NY scores)

-- ==========================================================================
-- Supporting lemmas about the ASI embedding
-- ==========================================================================

theorem asiUpdateBS_model (st : ASIState) (bs : Option Nat) :
    (asiUpdateBS st bs).model = st.model := by
  cases bs <;> rfl

theorem colAt_error_not_missing (cd : BandSet) (ntot i : Nat) (e : PyError)
    (h : colAt cd ntot i = .error e) : e.isMissingBand = false := by
  unfold colAt at h
  split at h
  · simp only [Except.error.injEq] at h
    subst h
    rfl
  · split at h
    · simp only [Except.error.injEq] at h
      subst h
      rfl
    · unfold flattenTo at h
      split at h
      · simp at h
      · simp only [Except.error.injEq] at h
        subst h
        rfl

theorem colAt_ok_parts (cd : BandSet) (ntot i : Nat) (col : List ℚ)
    (h : colAt cd ntot i = .ok col) :
    ∃ ch, ASI_required_channels.get? i = some ch ∧
      ∃ b, lookupBand cd ch = some b := by
  unfold colAt at h
  split at h
  · simp at h
  · rename_i ch hg
    split at h
    · simp at h
    · rename_i b hl
      exact ⟨ch, hg, b, hl⟩

theorem buildCols_error_not_missing (cd : BandSet) (ntot : Nat) :
    ∀ (cnt start : Nat) (e : PyError),
      buildCols cd ntot start cnt = .error e → e.isMissingBand = false := by
  intro cnt
  induction cnt with
  | zero => intro start e h; simp [buildCols] at h
  | succ c ih =>
    intro start e h
    simp only [buildCols] at h
    cases hcol : colAt cd ntot start with
    | error e' =>
      rw [hcol, error_bind] at h
      simp only [Except.error.injEq] at h
      subst h
      exact colAt_error_not_missing cd ntot start _ hcol
    | ok col =>
      rw [hcol, ok_bind] at h
      cases hrest : buildCols cd ntot (start + 1) c with
      | error e' =>
        rw [hrest, error_bind] at h
        simp only [Except.error.injEq] at h
        subst h
        exact ih (start + 1) _ hrest
      | ok rest => rw [hrest, ok_bind] at h; simp at h

theorem buildCols_ok_colAt (cd : BandSet) (ntot : Nat) :
    ∀ (cnt start : Nat) (l : List (List ℚ)),
      buildCols cd ntot start cnt = .ok l →
      ∀ k, k < cnt → ∃ col, colAt cd ntot (start + k) = .ok col := by
  intro cnt
  induction cnt with
  | zero => intro start l h k hk; omega
  | succ c ih =>
    intro start l h k hk
    simp only [buildCols] at h
    cases hcol : colAt cd ntot start with
    | error e => rw [hcol, error_bind] at h; simp at h
    | ok col =>
      rw [hcol, ok_bind] at h
      cases hrest : buildCols cd ntot (start + 1) c with
      | error e => rw [hrest, error_bind] at h; simp at h
      | ok rest =>
        cases k with
        | zero => exact ⟨col, by simpa using hcol⟩
        | succ n =>
          obtain ⟨col', hcol'⟩ := ih (start + 1) rest hrest n (by omega)
          refine ⟨col', ?_⟩
          rw [show start + (n + 1) = start + 1 + n from by omega]
          exact hcol'

theorem buildCols_ok_of_all (cd : BandSet) (ntot : Nat) :
    ∀ (cnt start : Nat),
      (∀ k, k < cnt → ∃ col, colAt cd ntot (start + k) = .ok col) →
      ∃ l, buildCols cd ntot start cnt = .ok l := by
  intro cnt
  induction cnt with
  | zero => intro start _; exact ⟨[], rfl⟩
  | succ c ih =>
    intro start hall
    obtain ⟨col, hcol⟩ := hall 0 (by omega)
    rw [Nat.add_zero] at hcol
    obtain ⟨l, hl⟩ := ih (start + 1) (fun k hk => by
      obtain ⟨col', h'⟩ := hall (k + 1) (by omega)
      refine ⟨col', ?_⟩
      rw [show start + 1 + k = start + (k + 1) from by omega]
      exact h')
    refine ⟨col :: l, ?_⟩
    simp only [buildCols]
    rw [hcol, ok_bind, hl, ok_bind]

theorem buildCols_first_error (cd : BandSet) (ntot : Nat) :
    ∀ (cnt start k : Nat) (e : PyError), k < cnt →
      (∀ i, i < k → ∃ col, colAt cd ntot (start + i) = .ok col) →
      colAt cd ntot (start + k) = .error e →
      buildCols cd ntot start cnt = .error e := by
  intro cnt
  induction cnt with
  | zero => intro start k e hk; omega
  | succ c ih =>
    intro start k e hk hpre herr
    simp only [buildCols]
    cases k with
    | zero =>
      rw [Nat.add_zero] at herr
      rw [herr, error_bind]
    | succ n =>
      obtain ⟨col, hcol⟩ := hpre 0 (by omega)
      rw [Nat.add_zero] at hcol
      rw [hcol, ok_bind]
      have hrec := ih (start + 1) n e (by omega)
        (fun i hi => by
          obtain ⟨c', h'⟩ := hpre (i + 1) (by omega)
          refine ⟨c', ?_⟩
          rw [show start + 1 + i = start + (i + 1) from by omega]
          exact h')
        (by rw [show start + 1 + n = start + (n + 1) from by omega]; exact herr)
      rw [hrec, error_bind]

theorem predictModel_ok_width (m : LearnedModel) (ncols : Nat)
    (rows : List (List ℚ)) (bs : Option Nat) (out : List ℚ)
    (h : predictModel m ncols rows bs = .ok out) : ncols = m.inputWidth := by
  unfold predictModel at h
  split at h
  · assumption
  · simp at h

theorem predictModel_pos (b : Nat) (hb : 1 ≤ b) (m : LearnedModel)
    (ncols : Nat) (rows : List (List ℚ)) :
    predictModel m ncols rows (some b) = predictModel m ncols rows none := by
  unfold predictModel
  split
  · congr 1
    dsimp only
    rw [← List.map_flatten, chunks_join b hb rows]
  · rfl

theorem flatten_len_of_rows {ny : Nat} :
    ∀ (b : Mat), (∀ row ∈ b, row.length = ny) →
      b.flatten.length = b.length * ny := by
  intro b
  induction b with
  | nil => intro _; simp
  | cons r tl ih =>
    intro hr
    simp only [List.flatten_cons, List.length_append, List.length_cons]
    rw [hr r (by simp), ih (fun row hrow => hr row (List.mem_cons_of_mem _ hrow))]
    ring

theorem IsRect.flatten_len {b : Mat} {nx ny : Nat} (h : IsRect b nx ny) :
    b.flatten.length = nx * ny := by
  rw [← h.1]
  exact flatten_len_of_rows b h.2

theorem shape_ntot {b0 band : Mat} {nx ny : Nat}
    (h0 : IsRect b0 nx ny) (hb : IsRect band nx ny) :
    band.flatten.length = b0.length * (b0.headD []).length := by
  rw [IsRect.flatten_len hb, h0.1]
  cases hb0 : b0 with
  | nil =>
    have hx : nx = 0 := by rw [← h0.1, hb0]; rfl
    subst hx
    simp
  | cons r tl =>
    have hr : r.length = ny := h0.2 r (by rw [hb0]; simp)
    simp [hr]

theorem colAt_ok_of_present (cd : BandSet) (b0 : Mat) (nx ny k : Nat)
    (h0 : IsRect b0 nx ny)
    (hk : k < ASI_required_channels.length)
    (hall : ∀ ch ∈ ASI_required_channels,
      ∃ b, lookupBand cd ch = some b ∧ IsRect b nx ny) :
    ∃ col, colAt cd (b0.length * (b0.headD []).length) k = .ok col := by
  have hch : ASI_required_channels.get? k
      = some (ASI_required_channels.get ⟨k, hk⟩) := by
    simp
  have hmem : ASI_required_channels.get ⟨k, hk⟩ ∈ ASI_required_channels :=
    List.get?_mem hch
  obtain ⟨b, hb, hbr⟩ := hall _ hmem
  refine ⟨b.flatten, ?_⟩
  unfold colAt
  rw [hch]
  dsimp only
  rw [hb]
  dsimp only
  unfold flattenTo
  rw [if_pos (shape_ntot h0 hbr)]

theorem predictModel_error (m : LearnedModel) (ncols : Nat)
    (rows : List (List ℚ)) (bs : Option Nat) (e : PyError)
    (h : predictModel m ncols rows bs = .error e) : e = .valueError := by
  unfold predictModel at h
  split at h
  · simp at h
  · simp only [Except.error.injEq] at h
    exact h.symm

theorem reshapeTo_error (nx ny : Nat) (xs : List ℚ) (e : PyError)
    (h : reshapeTo nx ny xs = .error e) : e = .valueError := by
  unfold reshapeTo at h
  split at h
  · simp at h
  · simp only [Except.error.injEq] at h
    exact h.symm

theorem asiCompute_error_not_missing (st : ASIState) (cd : BandSet)
    (bs : Option Nat) (e : PyError)
    (h : (asiCompute st cd bs).2 = .error e) : e.isMissingBand = false := by
  simp only [asiCompute] at h
  cases h02 : lookupBand cd "B02" with
  | none =>
    simp only [h02, ofOption, error_bind, Except.error.injEq] at h
    subst h
    rfl
  | some b0 =>
    simp only [h02, ofOption, ok_bind] at h
    cases hcols : buildCols cd (b0.length * (b0.headD []).length) 0 cd.length with
    | error e' =>
      simp only [hcols, error_bind, Except.error.injEq] at h
      subst h
      exact buildCols_error_not_missing cd _ cd.length 0 _ hcols
    | ok cols =>
      simp only [hcols, ok_bind] at h
      cases hm : (asiUpdateBS st bs).model with
      | none =>
        simp only [hm, ofOption, error_bind, Except.error.injEq] at h
        subst h
        rfl
      | some m =>
        simp only [hm, ofOption, ok_bind] at h
        cases hpred : predictModel m cd.length cols.transpose
            (asiUpdateBS st bs).batch_size with
        | error e' =>
          simp only [hpred, error_bind, Except.error.injEq] at h
          subst h
          rw [predictModel_error _ _ _ _ _ hpred]
          rfl
        | ok scores =>
          simp only [hpred, ok_bind] at h
          rw [reshapeTo_error _ _ _ _ h]
          rfl

theorem asiCompute_missing_fails (st : ASIState) (cd : BandSet)
    (bs : Option Nat)
    (hW : ∀ m, st.model = some m → m.inputWidth = 9)
    (hmiss : ∃ ch ∈ ASI_required_channels, lookupBand cd ch = none) :
    ∃ e, (asiCompute st cd bs).2 = .error e ∧ e.isMissingBand = false := by
  cases hout : (asiCompute st cd bs).2 with
  | error e => exact ⟨e, rfl, asiCompute_error_not_missing st cd bs e hout⟩
  | ok out =>
    exfalso
    obtain ⟨ch, hch, hnone⟩ := hmiss
    simp only [asiCompute] at hout
    cases h02 : lookupBand cd "B02" with
    | none =>
      simp only [h02, ofOption, error_bind] at hout
      exact Except.noConfusion hout
    | some b0 =>
      simp only [h02, ofOption, ok_bind] at hout
      cases hcols : buildCols cd (b0.length * (b0.headD []).length) 0 cd.length with
      | error e' =>
        simp only [hcols, error_bind] at hout
        exact Except.noConfusion hout
      | ok cols =>
        simp only [hcols, ok_bind] at hout
        cases hm : (asiUpdateBS st bs).model with
        | none =>
          simp only [hm, ofOption, error_bind] at hout
          exact Except.noConfusion hout
        | some m =>
          simp only [hm, ofOption, ok_bind] at hout
          cases hpred : predictModel m cd.length cols.transpose
              (asiUpdateBS st bs).batch_size with
          | error e' =>
            simp only [hpred, error_bind] at hout
            exact Except.noConfusion hout
          | ok scores =>
            have hw : cd.length = m.inputWidth :=
              predictModel_ok_width _ _ _ _ _ hpred
            have h9 : m.inputWidth = 9 :=
              hW m (by rw [← asiUpdateBS_model st bs]; exact hm)
            obtain ⟨k, hk, hget⟩ := List.mem_iff_getElem.mp hch
            have hkcd : k < cd.length := by
              rw [hw, h9]
              simpa [ASI_required_channels] using hk
            obtain ⟨col, hcol⟩ :=
              buildCols_ok_colAt cd _ cd.length 0 cols hcols k hkcd
            rw [Nat.zero_add] at hcol
            obtain ⟨ch', hch', b, hb⟩ := colAt_ok_parts cd _ k col hcol
            have hgk : ASI_required_channels.get? k = some ch := by
              rw [List.get?_eq_getElem?, List.getElem?_eq_getElem hk, hget]
            rw [hgk] at hch'
            have hcc : ch = ch' := by injection hch'
            rw [← hcc] at hb
            rw [hb] at hnone
            exact Option.noConfusion hnone

-- ==========================================================================
-- Concrete ASI datasets and models
-- ==========================================================================

/-- A 1×1 band array holding `q`. -/
def oneCell (q : ℚ) : Mat := [[q]]

/-- A 1×1 dataset containing exactly the nine required ASI channels. -/
def cd9 : BandSet :=
  [("B02", oneCell 1), ("B03", oneCell 2), ("B04", oneCell 3),
   ("B05", oneCell 4), ("B06", oneCell 5), ("B07", oneCell 6),
   ("B8A", oneCell 7), ("B11", oneCell 8), ("B12", oneCell 9)]

/-- `cd9` plus one extra (non-required) band. -/
def cd10 : BandSet := cd9 ++ [("B01", oneCell 10)]

/-- A 3×3 band array of constant `q`. -/
def mat3 (q : ℚ) : Mat := [[q, q, q], [q, q, q], [q, q, q]]

/-- A 3×3 dataset containing exactly the nine required ASI channels. -/
def cd3 : BandSet :=
  [("B02", mat3 1), ("B03", mat3 2), ("B04", mat3 3), ("B05", mat3 4),
   ("B06", mat3 5), ("B07", mat3 6), ("B8A", mat3 7), ("B11", mat3 8),
   ("B12", mat3 9)]

/-- The spec's stub scoring function: constant 0.7 for any feature vector,
with the trained architecture's nine-feature input. -/
def stubModel : LearnedModel := { inputWidth := 9, score := fun _ => 7/10 }

/-- An `ASI_Index` whose model is loaded (the stub). -/
def asiStubState : ASIState := ASI_init (some stubModel) (some 2048) true

/-- An `ASI_Index` constructed without a model path: `self.model is None`. -/
def asiNoModel : ASIState := ASI_init none (some 2048) true

/-- A band set missing B04 (and the other required channels of both
variants' leading accesses). -/
def cdMissingB04 : BandSet := [("B06", [[3/10]]), ("B8A", [[1/2]])]

-- ==========================================================================
-- C5: missing required bands
-- ==========================================================================

/-- C5 counterexample: on a band set missing B04, `AFAI_Index.compute` fails
with a plain `KeyError` from the dict access — no `MissingBandError` class
exists anywhere in the source — refuting "fails with a MissingBandError ...
not with a generic failure". -/
theorem C5_missing_band_cx :
    afaiCompute cdMissingB04 = .error (.keyError "B04") ∧
    (PyError.keyError "B04").isMissingBand = false := ⟨rfl, rfl⟩

/-- C5 amended: for every band set missing at least one required channel,
compute of either variant fails, but with a generic error rather than a
MissingBandError: AFAI raises `KeyError` naming the first missing channel in
access order (B04, B06, B8A); ASI (whose model takes nine features) fails
with a `KeyError`, `IndexError`, model input-shape `ValueError` or — model
unloaded — `AttributeError`, never anything identifying itself as a
MissingBandError. -/
theorem C5_missing_band_amended (cdA cdS : BandSet) (st : ASIState)
    (bs : Option Nat)
    (hA : ∃ ch ∈ AFAI_required_channels, lookupBand cdA ch = none)
    (hS : ∃ ch ∈ ASI_required_channels, lookupBand cdS ch = none)
    (hW : ∀ m, st.model = some m → m.inputWidth = 9) :
    (∃ ch ∈ AFAI_required_channels, lookupBand cdA ch = none ∧
        afaiCompute cdA = .error (.keyError ch) ∧
        (PyError.keyError ch).isMissingBand = false) ∧
    (∃ e, (asiCompute st cdS bs).2 = .error e ∧ e.isMissingBand = false) := by
  refine ⟨?_, asiCompute_missing_fails st cdS bs hW hS⟩
  cases h04 : lookupBand cdA "B04" with
  | none =>
    refine ⟨"B04", by simp [AFAI_required_channels], h04, ?_, rfl⟩
    simp [afaiCompute, h04, ofOption, error_bind]
  | some RED =>
    cases h06 : lookupBand cdA "B06" with
    | none =>
      refine ⟨"B06", by simp [AFAI_required_channels], h06, ?_, rfl⟩
      simp [afaiCompute, h04, h06, ofOption, ok_bind, error_bind]
    | some NIR =>
      cases h8A : lookupBand cdA "B8A" with
      | none =>
        refine ⟨"B8A", by simp [AFAI_required_channels], h8A, ?_, rfl⟩
        simp [afaiCompute, h04, h06, h8A, ofOption, ok_bind, error_bind]
      | some SWIR =>
        exfalso
        obtain ⟨ch, hch, hnone⟩ := hA
        simp [AFAI_required_channels] at hch
        rcases hch with rfl | rfl | rfl
        · rw [h04] at hnone; exact Option.noConfusion hnone
        · rw [h06] at hnone; exact Option.noConfusion hnone
        · rw [h8A] at hnone; exact Option.noConfusion hnone

/-- Witness: C5 amended on a concrete band set missing required channels of
both variants, with the stub nine-input model loaded. -/
theorem C5_missing_band_amended_witness :
    (∃ ch ∈ AFAI_required_channels, lookupBand cdMissingB04 ch = none) ∧
    ((∃ ch ∈ AFAI_required_channels, lookupBand cdMissingB04 ch = none ∧
        afaiCompute cdMissingB04 = .error (.keyError ch) ∧
        (PyError.keyError ch).isMissingBand = false) ∧
     (∃ e, (asiCompute asiStubState cdMissingB04 none).2 = .error e ∧
        e.isMissingBand = false)) :=
  ⟨⟨"B04", by simp [AFAI_required_channels], rfl⟩,
   C5_missing_band_amended cdMissingB04 cdMissingB04 asiStubState none
     ⟨"B04", by simp [AFAI_required_channels], rfl⟩
     ⟨"B02", by simp [ASI_required_channels], rfl⟩
     (by intro m hm; cases hm; rfl)⟩

-- ==========================================================================
-- C6: compute before load_model
-- ==========================================================================

/-- C6 counterexample: an `ASI_Index` constructed without a model path has
`self.model = None`; `compute` on a full nine-band dataset then dies at
`self.model.predict(...)` with a generic `AttributeError` — no
`ModelNotLoadedError` class exists in the source, refuting "fails with a
ModelNotLoadedError". -/
theorem C6_model_cx :
    (asiCompute asiNoModel cd9 none).2 = .error .attributeError ∧
    PyError.attributeError.isModelNotLoaded = false := ⟨rfl, rfl⟩

/-- C6 amended: if an `ASI_Index` is constructed without a model path and
`compute` is invoked (on equal-shape data containing exactly the nine
required channels) before `load_model` has been called, the call fails with
an `AttributeError` from `None.predict`, not with a ModelNotLoadedError. -/
theorem C6_model_not_loaded_amended (st : ASIState) (cd : BandSet)
    (bs : Option Nat) (nx ny : Nat)
    (hm : st.model = none)
    (h9 : cd.length = 9)
    (hall : ∀ ch ∈ ASI_required_channels,
      ∃ b, lookupBand cd ch = some b ∧ IsRect b nx ny) :
    (asiCompute st cd bs).2 = .error .attributeError ∧
    PyError.attributeError.isModelNotLoaded = false := by
  refine ⟨?_, rfl⟩
  obtain ⟨b0, h02, h0r⟩ := hall "B02" (by simp [ASI_required_channels])
  obtain ⟨cols, hcols⟩ := buildCols_ok_of_all cd
    (b0.length * (b0.headD []).length) cd.length 0 (fun k hk => by
      rw [h9] at hk
      obtain ⟨col, hc⟩ := colAt_ok_of_present cd b0 nx ny k h0r
        (by rw [show ASI_required_channels.length = 9 from rfl]; exact hk) hall
      exact ⟨col, by rw [Nat.zero_add]; exact hc⟩)
  have hm' : (asiUpdateBS st bs).model = none := by
    rw [asiUpdateBS_model]; exact hm
  simp only [asiCompute, h02, ofOption, ok_bind, hcols, hm', error_bind]

/-- Witness: C6 amended on the concrete no-model instance and 1×1 dataset. -/
theorem C6_model_not_loaded_witness :
    asiNoModel.model = none ∧
    ((asiCompute asiNoModel cd9 none).2 = .error .attributeError ∧
     PyError.attributeError.isModelNotLoaded = false) :=
  ⟨rfl,
   C6_model_not_loaded_amended asiNoModel cd9 none 1 1 rfl rfl
     (by intro ch hch; fin_cases hch <;> exact ⟨_, rfl, by decide⟩)⟩

-- ==========================================================================
-- C8: what compute mutates
-- ==========================================================================

/-- C8 counterexample: `ASI_Index.compute` with an explicit `batch_size`
argument overwrites the instance's `batch_size` set at construction
(`self.batch_size = batch_size`), so the configuration is not unchanged
after compute returns. -/
theorem C8_batch_size_mutated_cx :
    ((asiCompute (ASI_init (some stubModel) (some 2048) true) cd9
        (some 512)).1).batch_size = some 512 ∧
    (some 512 : Option Nat) ≠ some 2048 := ⟨rfl, by decide⟩

/-- C8 amended: compute of either variant leaves the loaded model and the
verbose flag unchanged and (band arrays being immutable values here) never
mutates the input arrays; `ASI_Index.compute` with `batch_size=None` leaves
the whole instance state unchanged, but with an explicit `batch_size` it
sets the instance's `batch_size` field to that argument. -/
theorem C8_instance_state (st : ASIState) (cd : BandSet) (b : Nat) :
    (asiCompute st cd none).1 = st ∧
    (asiCompute st cd (some b)).1 = { st with batch_size := some b } ∧
    ((asiCompute st cd (some b)).1).model = st.model ∧
    ((asiCompute st cd (some b)).1).verbose = st.verbose :=
  ⟨rfl, rfl, rfl, rfl⟩

-- ==========================================================================
-- C9: batching is invisible
-- ==========================================================================

/-- C9: for every dataset and every pair of positive batch sizes,
`ASI_Index.compute` returns identical results — batching has no numeric
effect — and the constant-0.7 stub model on the 3×3 nine-band dataset yields
a 3×3 array of 0.7 for each of the batch sizes 1, 4 and 9. -/
theorem C9_batching_invisible (st : ASIState) (cd : BandSet) (b1 b2 : Nat)
    (h1 : 1 ≤ b1) (h2 : 1 ≤ b2) :
    (asiCompute st cd (some b1)).2 = (asiCompute st cd (some b2)).2 ∧
    (∀ b, b ∈ [1, 4, 9] →
      (asiCompute asiStubState cd3 (some b)).2 = .ok (mat3 (7/10))) := by
  constructor
  · simp only [asiCompute, asiUpdateBS]
    simp only [predictModel_pos b1 h1, predictModel_pos b2 h2]
  · intro b hb
    fin_cases hb <;> rfl

/-- Witness: C9 applied with batch sizes 4 and 9 on the stub setup. -/
theorem C9_batching_invisible_witness :
    (1 ≤ 4) ∧
    ((asiCompute asiStubState cd3 (some 4)).2
        = (asiCompute asiStubState cd3 (some 9)).2 ∧
     (∀ b, b ∈ [1, 4, 9] →
       (asiCompute asiStubState cd3 (some b)).2 = .ok (mat3 (7/10)))) :=
  ⟨by omega,
   C9_batching_invisible asiStubState cd3 4 9 (by omega) (by omega)⟩

-- ==========================================================================
-- C10: extra bands overflow the required-channel list
-- ==========================================================================

/-- C10: `ASI_Index.compute` sizes its feature matrix by
`NCH = len(channels_data)` and indexes `required_channels[i]` for
`i in range(NCH)`, so a dataset containing all nine required bands plus at
least one extra band fails with an out-of-range `IndexError` instead of
ignoring the extra band. -/
theorem C10_extra_band_index_error (st : ASIState) (cd : BandSet)
    (bs : Option Nat) (nx ny : Nat)
    (hall : ∀ ch ∈ ASI_required_channels,
      ∃ b, lookupBand cd ch = some b ∧ IsRect b nx ny)
    (hlen : 10 ≤ cd.length) :
    (asiCompute st cd bs).2 = .error .indexError := by
  obtain ⟨b0, h02, h0r⟩ := hall "B02" (by simp [ASI_required_channels])
  have hcols : buildCols cd (b0.length * (b0.headD []).length) 0 cd.length
      = .error .indexError := by
    apply buildCols_first_error cd _ cd.length 0 9 .indexError (by omega)
    · intro i hi
      obtain ⟨col, hc⟩ := colAt_ok_of_present cd b0 nx ny i h0r
        (by rw [show ASI_required_channels.length = 9 from rfl]; omega) hall
      exact ⟨col, by rw [Nat.zero_add]; exact hc⟩
    · rw [Nat.zero_add]
      rfl
  simp only [asiCompute, h02, ofOption, ok_bind, hcols, error_bind]

/-- Witness: C10 on the concrete ten-band dataset `cd10`. -/
theorem C10_extra_band_index_error_witness :
    (10 ≤ cd10.length) ∧
    (asiCompute asiStubState cd10 none).2 = .error .indexError :=
  ⟨by decide,
   C10_extra_band_index_error asiStubState cd10 none 1 1
     (by intro ch hch; fin_cases hch <;> exact ⟨_, rfl, by decide⟩)
     (by decide)⟩

end Sargassum
